import Mathlib

/-!
# Verification of the `github` webhook dispatch pipeline (`src/github/event.go`)

Shallow embedding of the request-verification-and-dispatch pipeline of the
`ntrv/webhooks` repository, package `github`:

* the event vocabulary (the 33 `Event` constants),
* `getGitHubEvent`, `getGitHubHandler`, `verifySignature`, `readPayload`,
  `ParsePayload` and `runProcessPayloadFunc`,
* byte-exact models of the Go standard library pieces they call:
  `crypto/sha1`, `crypto/hmac`, `encoding/hex`, and the validity/structure
  part of `encoding/json.Unmarshal`.

Bytes are modelled as `List Nat` (each entry < 256).  Go strings that are
sliced or measured byte-wise in the source (header values, the secret) are
also modelled as byte lists, so that `signature[5:]` and `len(signature)`
mean exactly what they mean in Go.

A note on scoping in the source: inside `verifySignature` the identifier
`payload` is not bound by any declaration in `src/` (the function reads it
before `ParsePayload` ever reads the request body, and the body-reading
code declares only function-local variables with `:=`).  The only
completion of the program that compiles is a package-level
`var payload []byte`, which no code in `src/` ever assigns, so it always
holds its Go zero value (empty).  The embedding makes this explicit as a
`World` record threaded through the pipeline.
-/

/-! ## Bytes -/

/-- A byte string, each entry `< 256`. -/
abbrev Bytes := List Nat

/-- ASCII bytes of a Lean string literal (used only to write concrete inputs). -/
def strBytes (s : String) : Bytes := s.data.map Char.toNat

/-! ## Model of Go `crypto/sha1` -/

/-- Truncation to 32 bits. -/
def w32 (n : Nat) : Nat := n % 4294967296

/-- 32-bit left rotation (argument assumed `< 2^32`, shift `< 32`). -/
def rotl32 (x s : Nat) : Nat := w32 ((x <<< s) ||| (x >>> (32 - s)))

/-- Big-endian 32-bit word from four bytes. -/
def be32 (a b c d : Nat) : Nat := ((a * 256 + b) * 256 + c) * 256 + d

/-- Big-endian bytes of a 32-bit word. -/
def be32Bytes (n : Nat) : Bytes :=
  [(n >>> 24) % 256, (n >>> 16) % 256, (n >>> 8) % 256, n % 256]

/-- Big-endian bytes of a 64-bit length field. -/
def be64Bytes (n : Nat) : Bytes :=
  [(n >>> 56) % 256, (n >>> 48) % 256, (n >>> 40) % 256, (n >>> 32) % 256,
   (n >>> 24) % 256, (n >>> 16) % 256, (n >>> 8) % 256, n % 256]

/-- Group bytes into big-endian 32-bit words. -/
def toWords : Bytes → List Nat
  | a :: b :: c :: d :: rest => be32 a b c d :: toWords rest
  | _ => []

/-- SHA-1 message padding: `0x80`, zeros to 56 mod 64, 64-bit bit length. -/
def sha1Pad (msg : Bytes) : Bytes :=
  let l := msg.length
  msg ++ [128] ++ List.replicate ((119 - l % 64) % 64) 0 ++ be64Bytes (8 * l)

/-- Split into 64-byte blocks (fuel-driven; the fuel is always sufficient). -/
def chunksF : Nat → Bytes → List Bytes
  | 0, _ => []
  | _, [] => []
  | n + 1, l => l.take 64 :: chunksF n (l.drop 64)

/-- Split a padded message into its 64-byte blocks. -/
def chunks64 (l : Bytes) : List Bytes := chunksF l.length l

/-- Extend the 16 message words by `n` further schedule words. -/
def sha1Extend (ws : List Nat) : Nat → List Nat
  | 0 => ws
  | n + 1 =>
    let ws' := sha1Extend ws n
    let l := ws'.length
    ws' ++ [rotl32 ((ws'.getD (l - 3) 0) ^^^ (ws'.getD (l - 8) 0) ^^^
                    (ws'.getD (l - 14) 0) ^^^ (ws'.getD (l - 16) 0)) 1]

/-- The SHA-1 round function, by round index. -/
def sha1F (i b c d : Nat) : Nat :=
  if i < 20 then (b &&& c) ||| ((b ^^^ 4294967295) &&& d)
  else if i < 40 then b ^^^ c ^^^ d
  else if i < 60 then (b &&& c) ||| (b &&& d) ||| (c &&& d)
  else b ^^^ c ^^^ d

/-- The SHA-1 round constants, by round index. -/
def sha1K (i : Nat) : Nat :=
  if i < 20 then 1518500249
  else if i < 40 then 1859775393
  else if i < 60 then 2400959708
  else 3395469782

/-- Run the 80 SHA-1 rounds over the (index, schedule word) list. -/
def sha1Rounds : List (Nat × Nat) → Nat × Nat × Nat × Nat × Nat → Nat × Nat × Nat × Nat × Nat
  | [], st => st
  | (i, wi) :: rest, (a, b, c, d, e) =>
    sha1Rounds rest
      (w32 (rotl32 a 5 + sha1F i b c d + e + sha1K i + wi), a, rotl32 b 30, c, d)

/-- Compress one 64-byte block into the running hash state. -/
def sha1Block (h : Nat × Nat × Nat × Nat × Nat) (block : Bytes) : Nat × Nat × Nat × Nat × Nat :=
  let ws := sha1Extend (toWords block) 64
  match h, sha1Rounds ((List.range 80).zip ws) h with
  | (h0, h1, h2, h3, h4), (a, b, c, d, e) =>
    (w32 (h0 + a), w32 (h1 + b), w32 (h2 + c), w32 (h3 + d), w32 (h4 + e))

/-- SHA-1 digest (20 bytes) of a byte string, as in Go `crypto/sha1`. -/
def sha1 (msg : Bytes) : Bytes :=
  match (chunks64 (sha1Pad msg)).foldl sha1Block
      (1732584193, 4023233417, 2562383102, 271733878, 3285377520) with
  | (h0, h1, h2, h3, h4) =>
    be32Bytes h0 ++ be32Bytes h1 ++ be32Bytes h2 ++ be32Bytes h3 ++ be32Bytes h4

/-- HMAC-SHA1, as in Go `crypto/hmac` (block size 64). -/
def hmacSha1 (key msg : Bytes) : Bytes :=
  let k0 := if key.length > 64 then sha1 key else key
  let k := k0 ++ List.replicate (64 - k0.length) 0
  sha1 ((k.map (fun b => b ^^^ 92)) ++ sha1 ((k.map (fun b => b ^^^ 54)) ++ msg))

/-- Lowercase hex digit as an ASCII byte. -/
def hexDigit (n : Nat) : Nat := if n < 10 then 48 + n else 87 + n

/-- Model of Go `hex.EncodeToString`, as ASCII bytes. -/
def hexBytes (bs : Bytes) : Bytes :=
  bs.foldr (fun b acc => hexDigit (b / 16) :: hexDigit (b % 16) :: acc) []

/-! ## Model of the validity/structure part of Go `encoding/json` -/

/-- Structural JSON values (model of what `json.Unmarshal` accepts).
Number and string tokens keep their raw lexemes: the model only needs a
deterministic parse result, not numeric/escape evaluation. -/
inductive Json where
  | null
  | bool (b : Bool)
  | num (lexeme : Bytes)
  | str (raw : Bytes)
  | arr (elems : List Json)
  | obj (members : List (Bytes × Json))
deriving Repr

/-- JSON whitespace bytes. -/
def isWs (c : Nat) : Bool := c == 32 || c == 9 || c == 10 || c == 13

/-- Drop leading JSON whitespace. -/
def skipWs : Bytes → Bytes
  | c :: rest => if isWs c then skipWs rest else c :: rest
  | [] => []

/-- ASCII decimal digit. -/
def isDigit (c : Nat) : Bool := 48 ≤ c && c ≤ 57

/-- ASCII hexadecimal digit. -/
def isHexDigit (c : Nat) : Bool := isDigit c || (97 ≤ c && c ≤ 102) || (65 ≤ c && c ≤ 70)

/-- Parse a JSON string after its opening quote. Returns the raw contents
(escapes kept) and the rest of the input past the closing quote. -/
def parseStringBody : Nat → Bytes → Option (Bytes × Bytes)
  | 0, _ => none
  | _, [] => none
  | fuel + 1, c :: rest =>
    if c == 34 then some ([], rest)
    else if c == 92 then
      match rest with
      | [] => none
      | e :: rest2 =>
        if e == 117 then
          match rest2 with
          | u1 :: u2 :: u3 :: u4 :: rest3 =>
            if isHexDigit u1 && isHexDigit u2 && isHexDigit u3 && isHexDigit u4 then
              (parseStringBody fuel rest3).map
                (fun p => (c :: e :: u1 :: u2 :: u3 :: u4 :: p.1, p.2))
            else none
          | _ => none
        else if e == 34 || e == 92 || e == 47 || e == 98 || e == 102 ||
                e == 110 || e == 114 || e == 116 then
          (parseStringBody fuel rest2).map (fun p => (c :: e :: p.1, p.2))
        else none
    else if c < 32 then none
    else (parseStringBody fuel rest).map (fun p => (c :: p.1, p.2))

/-- Split off a maximal run of decimal digits. -/
def takeDigits : Bytes → Bytes × Bytes
  | c :: rest =>
    if isDigit c then
      let p := takeDigits rest
      (c :: p.1, p.2)
    else ([], c :: rest)
  | [] => ([], [])

/-- Optional fraction part of a JSON number. -/
def parseFrac : Bytes → Option (Bytes × Bytes)
  | 46 :: rest =>
    match takeDigits rest with
    | ([], _) => none
    | (ds, r) => some (46 :: ds, r)
  | s => some ([], s)

/-- Optional exponent part of a JSON number. -/
def parseExp : Bytes → Option (Bytes × Bytes)
  | c :: rest =>
    if c == 101 || c == 69 then
      let p : Bytes × Bytes :=
        match rest with
        | 43 :: r => ([43], r)
        | 45 :: r => ([45], r)
        | _ => ([], rest)
      match takeDigits p.2 with
      | ([], _) => none
      | (ds, r2) => some (c :: (p.1 ++ ds), r2)
    else some ([], c :: rest)
  | [] => some ([], [])

/-- Parse a JSON number lexeme. -/
def parseNumber (s : Bytes) : Option (Bytes × Bytes) :=
  let p : Bytes × Bytes :=
    match s with
    | 45 :: rest => ([45], rest)
    | _ => ([], s)
  match p.2 with
  | [] => none
  | c :: rest =>
    if c == 48 then do
      let (f, r1) ← parseFrac rest
      let (e, r2) ← parseExp r1
      some (p.1 ++ [48] ++ f ++ e, r2)
    else if isDigit c then do
      let ds := takeDigits rest
      let (f, r1) ← parseFrac ds.2
      let (e, r2) ← parseExp r1
      some (p.1 ++ (c :: ds.1) ++ f ++ e, r2)
    else none

mutual

/-- Parse one JSON value (fuel-driven recursion; byte 123 is an opening
brace, byte 125 a closing brace, byte 91/93 brackets, 44 comma, 58 colon). -/
def parseVal : Nat → Bytes → Option (Json × Bytes)
  | 0, _ => none
  | fuel + 1, s =>
    match skipWs s with
    | [] => none
    | c :: rest =>
      if c == 110 then
        match rest with
        | 117 :: 108 :: 108 :: r => some (.null, r)
        | _ => none
      else if c == 116 then
        match rest with
        | 114 :: 117 :: 101 :: r => some (.bool true, r)
        | _ => none
      else if c == 102 then
        match rest with
        | 97 :: 108 :: 115 :: 101 :: r => some (.bool false, r)
        | _ => none
      else if c == 34 then
        (parseStringBody rest.length rest).map (fun p => (.str p.1, p.2))
      else if c == 91 then
        match skipWs rest with
        | 93 :: r => some (.arr [], r)
        | _ => (parseElems fuel rest).map (fun p => (.arr p.1, p.2))
      else if c == 123 then
        match skipWs rest with
        | 125 :: r => some (.obj [], r)
        | _ => (parseMembers fuel rest).map (fun p => (.obj p.1, p.2))
      else
        (parseNumber (c :: rest)).map (fun p => (.num p.1, p.2))

/-- Parse the elements of a non-empty JSON array, up to the closing bracket. -/
def parseElems : Nat → Bytes → Option (List Json × Bytes)
  | 0, _ => none
  | fuel + 1, s => do
    let (v, r1) ← parseVal fuel s
    match skipWs r1 with
    | 44 :: r2 => (parseElems fuel r2).map (fun p => (v :: p.1, p.2))
    | 93 :: r2 => some ([v], r2)
    | _ => none

/-- Parse the members of a non-empty JSON object, up to the closing brace. -/
def parseMembers : Nat → Bytes → Option (List (Bytes × Json) × Bytes)
  | 0, _ => none
  | fuel + 1, s =>
    match skipWs s with
    | 34 :: r0 => do
      let (k, r1) ← parseStringBody r0.length r0
      match skipWs r1 with
      | 58 :: r2 => do
        let (v, r3) ← parseVal fuel r2
        match skipWs r3 with
        | 44 :: r4 => (parseMembers fuel r4).map (fun p => ((k, v) :: p.1, p.2))
        | 125 :: r4 => some ([(k, v)], r4)
        | _ => none
      | _ => none
    | _ => none

end

/-- Parse a complete JSON document: one value, then only whitespace.
This is the validity check `json.Unmarshal` applies to the body. -/
def parseJson (body : Bytes) : Option Json :=
  match parseVal (body.length + 1) body with
  | some (v, rest) => if (skipWs rest).isEmpty then some v else none
  | none => none

/-- `true` iff the body parses as a complete JSON document. -/
def isValidJson (body : Bytes) : Bool := (parseJson body).isSome

/-! ## The `github` package: event vocabulary (src/github/event.go, part 1) -/

/-- Go: `type Event string`.  Header values are byte strings, so an event is
a byte string. -/
abbrev Event := Bytes

def CommitCommentEvent : Event := strBytes "commit_comment"

def CreateEvent : Event := strBytes "create"

def DeleteEvent : Event := strBytes "delete"

def DeploymentEvent : Event := strBytes "deployment"

def DeploymentStatusEvent : Event := strBytes "deployment_status"

def ForkEvent : Event := strBytes "fork"

def GollumEvent : Event := strBytes "gollum"

def InstallationEvent : Event := strBytes "installation"

def IntegrationInstallationEvent : Event := strBytes "integration_installation"

def IssueCommentEvent : Event := strBytes "issue_comment"

def IssuesEvent : Event := strBytes "issues"

def LabelEvent : Event := strBytes "label"

def MemberEvent : Event := strBytes "member"

def MembershipEvent : Event := strBytes "membership"

def MilestoneEvent : Event := strBytes "milestone"

def OrganizationEvent : Event := strBytes "organization"

def OrgBlockEvent : Event := strBytes "org_block"

def PageBuildEvent : Event := strBytes "page_build"

def PingEvent : Event := strBytes "ping"

def ProjectCardEvent : Event := strBytes "project_card"

def ProjectColumnEvent : Event := strBytes "project_column"

def ProjectEvent : Event := strBytes "project"

def PublicEvent : Event := strBytes "public"

def PullRequestEvent : Event := strBytes "pull_request"

def PullRequestReviewEvent : Event := strBytes "pull_request_review"

def PullRequestReviewCommentEvent : Event := strBytes "pull_request_review_comment"

def PushEvent : Event := strBytes "push"

def ReleaseEvent : Event := strBytes "release"

def RepositoryEvent : Event := strBytes "repository"

def StatusEvent : Event := strBytes "status"

def TeamEvent : Event := strBytes "team"

def TeamAddEvent : Event := strBytes "team_add"

def WatchEvent : Event := strBytes "watch"

/-- The 33 event constants of the vocabulary, in source order. -/
def githubEvents : List Event :=
  [CommitCommentEvent, CreateEvent, DeleteEvent, DeploymentEvent,
   DeploymentStatusEvent, ForkEvent, GollumEvent, InstallationEvent,
   IntegrationInstallationEvent, IssueCommentEvent, IssuesEvent, LabelEvent,
   MemberEvent, MembershipEvent, MilestoneEvent, OrganizationEvent,
   OrgBlockEvent, PageBuildEvent, PingEvent, ProjectCardEvent,
   ProjectColumnEvent, ProjectEvent, PublicEvent, PullRequestEvent,
   PullRequestReviewEvent, PullRequestReviewCommentEvent, PushEvent,
   ReleaseEvent, RepositoryEvent, StatusEvent, TeamEvent, TeamAddEvent,
   WatchEvent]

/-! ## The `github` package: pipeline (src/github/event.go, part 2) -/

/-- Modelled from the spec: `webhooks.ProcessPayloadFunc` lives in the parent
`webhooks` package, which is not under `src/`.  The pipeline never inspects a
handler's behaviour or result (`runProcessPayloadFunc` calls it and discards
everything), so a handler is modelled as an opaque identifier; the pipeline's
observable output records which handler was invoked with which arguments. -/
abbrev ProcessPayloadFunc := Nat

/-- An inbound HTTP request: its header set and its raw body bytes.
Header values are byte strings because the source slices them byte-wise. -/
structure Request where
  headers : List (String × Bytes)
  body : Bytes

/-- Go `r.Header.Get`: first value for the key, or empty if absent. -/
def headerGet (hs : List (String × Bytes)) (k : String) : Bytes :=
  match hs.find? (fun p => p.1 == k) with
  | some p => p.2
  | none => []

/-- The `Webhook` value: the configured secret and the handler map.
Modelled from the spec for the struct declaration (its file is not under
`src/`): `src/github/event.go` reads exactly the fields `hook.secret` and
`hook.eventFuncs`, the configuration surface `{secret, handlers}` of §6.
The Go map holds at most one handler per event; an association list with
first-match lookup models it. -/
structure Webhook where
  secret : Bytes
  eventFuncs : List (Event × ProcessPayloadFunc)

/-- The package-level mutable state of the `github` package.  `payload` is
the identifier read by `verifySignature`; no declaration in `src/` binds it
and no statement in `src/` assigns it (both body reads use `:=`, declaring
locals), so it is the package-level `var payload []byte`, Go zero value
empty. -/
structure World where
  payload : Bytes

/-- The package state at process start: the zero value. -/
def initialWorld : World := ⟨[]⟩

/-- Outcome of `getGitHubEvent`/`readPayload`: either the value, or the
`(status, message)` pair the function wrote with `http.Error` before
returning its error. -/
abbrev Fallible (α : Type) := Except (Nat × String) α

/-- `getGitHubEvent`: read the `X-GitHub-Event` header; empty means a 400
error response and no event. -/
def getGitHubEvent (r : Request) : Fallible Event :=
  let event := headerGet r.headers "X-GitHub-Event"
  if event.length = 0 then .error (400, "Missing X-GitHub-Event Header")
  else .ok event

/-- First-match lookup in the handler map (Go map indexing with `ok`). -/
def lookupFunc : List (Event × ProcessPayloadFunc) → Event → Option ProcessPayloadFunc
  | [], _ => none
  | (k, f) :: rest, e => if k = e then some f else lookupFunc rest e

/-- Bytes back to a Lean string (for the error message text). -/
def bytesStr (bs : Bytes) : String := String.mk (bs.map Char.ofNat)

/-- `getGitHubHandler`: map lookup; on a miss, an error that the caller only
logs (no `http.Error` is written on this path). -/
def getGitHubHandler (hook : Webhook) (event : Event) : Except String ProcessPayloadFunc :=
  match lookupFunc hook.eventFuncs event with
  | some fn => .ok fn
  | none =>
    .error ("Webhook Event " ++ bytesStr event ++ " not registered, it is recommended to setup only events in github that will be registered in the webhook to avoid unnecessary traffic and reduce potential attack vectors.")

/-- Result of `verifySignature`: success, an error with the `http.Error`
`(status, message)` it wrote, or a Go runtime panic (`signature[5:]` with
`len(signature) < 5` is a slice-bounds panic). -/
inductive VerifyResult where
  | ok
  | err (status : Nat) (msg : String)
  | crash
deriving Repr, DecidableEq

/-- `verifySignature`: when a secret is configured, require a non-empty
`X-Hub-Signature` header, compute HMAC-SHA1 over the package-level
`payload` variable (see `World`), hex-encode it, and compare it against the
presented header after the first 5 bytes (`signature[5:]`).  `hmac.Equal`
is byte-sequence equality.  Without a secret the check is skipped. -/
def verifySignature (hook : Webhook) (world : World) (r : Request) : VerifyResult :=
  if hook.secret.length > 0 then
    let signature := headerGet r.headers "X-Hub-Signature"
    if signature.length = 0 then
      .err 403 "Missing X-Hub-Signature required for HMAC verification"
    else
      let expectedMAC := hexBytes (hmacSha1 hook.secret world.payload)
      if signature.length < 5 then .crash
      else if signature.drop 5 = expectedMAC then .ok
      else .err 403 "HMAC verification failed"
  else .ok

/-- `readPayload`: capture the whole body; a read failure or an empty body
is a 500 error response.  (The model has no I/O faults, so the error case
is exactly the empty body.) -/
def readPayload (r : Request) : Fallible Bytes :=
  if r.body.length = 0 then .error (500, "Issue reading Payload")
  else .ok r.body

/-- The schema selected by one arm of the `switch` in `ParsePayload` — the
Go payload struct type that `json.Unmarshal` fills. -/
inductive PayloadKind where
  | commitComment | create | delete | deployment | deploymentStatus | fork
  | gollum | installation | issueComment | issues | label | member
  | membership | milestone | organization | orgBlock | pageBuild | ping
  | projectCard | projectColumn | project | public | pullRequest
  | pullRequestReview | pullRequestReviewComment | push | release
  | repository | status | team | teamAdd | watch
deriving Repr, DecidableEq

/-- The `switch gitHubEvent` of `ParsePayload`, as arm selection: which
payload struct type the event decodes into.  The single arm
`case InstallationEvent, IntegrationInstallationEvent` gives both tokens the
same schema.  There is no `default` arm: any other event selects nothing. -/
def decodeArm (e : Event) : Option PayloadKind :=
  if e = CommitCommentEvent then some .commitComment
  else if e = CreateEvent then some .create
  else if e = DeleteEvent then some .delete
  else if e = DeploymentEvent then some .deployment
  else if e = DeploymentStatusEvent then some .deploymentStatus
  else if e = ForkEvent then some .fork
  else if e = GollumEvent then some .gollum
  else if e = InstallationEvent ∨ e = IntegrationInstallationEvent then some .installation
  else if e = IssueCommentEvent then some .issueComment
  else if e = IssuesEvent then some .issues
  else if e = LabelEvent then some .label
  else if e = MemberEvent then some .member
  else if e = MembershipEvent then some .membership
  else if e = MilestoneEvent then some .milestone
  else if e = OrganizationEvent then some .organization
  else if e = OrgBlockEvent then some .orgBlock
  else if e = PageBuildEvent then some .pageBuild
  else if e = PingEvent then some .ping
  else if e = ProjectCardEvent then some .projectCard
  else if e = ProjectColumnEvent then some .projectColumn
  else if e = ProjectEvent then some .project
  else if e = PublicEvent then some .public
  else if e = PullRequestEvent then some .pullRequest
  else if e = PullRequestReviewEvent then some .pullRequestReview
  else if e = PullRequestReviewCommentEvent then some .pullRequestReviewComment
  else if e = PushEvent then some .push
  else if e = ReleaseEvent then some .release
  else if e = RepositoryEvent then some .repository
  else if e = StatusEvent then some .status
  else if e = TeamEvent then some .team
  else if e = TeamAddEvent then some .teamAdd
  else if e = WatchEvent then some .watch
  else none

/-- The value a case arm builds and hands to the handler: the zero value of
the selected payload struct, overwritten by whatever `json.Unmarshal`
parsed out of the body (`none` when the body is not valid JSON — the arm
ignores `Unmarshal`'s error and passes the zero value on). -/
abbrev DecodedPayload := PayloadKind × Option Json

/-- Decoding as a function of the event token and the body: the selected
arm, if any, paired with the parse result of the body. -/
def decodePayload (e : Event) (body : Bytes) : Option DecodedPayload :=
  (decodeArm e).map (fun k => (k, parseJson body))

/-- One handler invocation performed by `runProcessPayloadFunc`:
`fn(results, header)`. -/
structure Invocation where
  fn : ProcessPayloadFunc
  results : DecodedPayload
  header : List (String × Bytes)

/-- The observable outcome of one `ParsePayload` call: the error response
written (if any), the handler invocation performed (if any), and whether
the call ended in a runtime panic. -/
structure PipelineResult where
  response : Option (Nat × String)
  invoked : Option Invocation
  crashed : Bool

/-- `ParsePayload`: the pipeline, in source order — event header, handler
lookup, signature verification, body read, then the decode-and-dispatch
switch.  The package state (`World`) is threaded through explicitly; no
step of the source assigns to it. -/
def ParsePayload (hook : Webhook) (world : World) (r : Request) : PipelineResult × World :=
  match getGitHubEvent r with
  | .error resp => (⟨some resp, none, false⟩, world)
  | .ok gitHubEvent =>
    match getGitHubHandler hook gitHubEvent with
    | .error _ => (⟨none, none, false⟩, world)
    | .ok fn =>
      match verifySignature hook world r with
      | .crash => (⟨none, none, true⟩, world)
      | .err st msg => (⟨some (st, msg), none, false⟩, world)
      | .ok =>
        match readPayload r with
        | .error resp => (⟨some resp, none, false⟩, world)
        | .ok payload =>
          match decodePayload gitHubEvent payload with
          | some results => (⟨none, some ⟨fn, results, r.headers⟩, false⟩, world)
          | none => (⟨none, none, false⟩, world)


/-! ## Concrete fixtures used by the theorems -/

/-- The body of the spec's ping scenario. -/
def zenBody : Bytes := strBytes "\x7b\"zen\":\"x\"\x7d"

/-- A registry with the secret `s3cr3t` and a ping handler. -/
def securedHook : Webhook := ⟨strBytes "s3cr3t", [(PingEvent, 7)]⟩

/-- An unsecured registry with a ping handler. -/
def pingHook : Webhook := ⟨[], [(PingEvent, 7)]⟩

/-- A ping request whose signature header is the HMAC-SHA1 of its own body
under the configured secret — a correctly signed request. -/
def signedRequest : Request :=
  ⟨[("X-GitHub-Event", strBytes "ping"),
    ("X-Hub-Signature", strBytes "sha1=" ++ hexBytes (hmacSha1 (strBytes "s3cr3t") zenBody))],
   zenBody⟩

/-- The same ping request, but signed over the empty byte string instead of
the body. -/
def emptySignedRequest : Request :=
  ⟨[("X-GitHub-Event", strBytes "ping"),
    ("X-Hub-Signature", strBytes "sha1=" ++ hexBytes (hmacSha1 (strBytes "s3cr3t") []))],
   zenBody⟩

/-- A ping request with a 4-byte signature header. -/
def shortSigRequest : Request :=
  ⟨[("X-GitHub-Event", strBytes "ping"), ("X-Hub-Signature", strBytes "sha1")], zenBody⟩

/-- A ping request with a 5-byte signature header (empty hex part). -/
def fiveSigRequest : Request :=
  ⟨[("X-GitHub-Event", strBytes "ping"), ("X-Hub-Signature", strBytes "sha1=")], zenBody⟩

/-- A ping request with no signature header. -/
def noSigRequest : Request := ⟨[("X-GitHub-Event", strBytes "ping")], zenBody⟩

/-- A ping request whose body is a lone opening brace — not valid JSON. -/
def malformedRequest : Request := ⟨[("X-GitHub-Event", strBytes "ping")], strBytes "\x7b"⟩

/-- A ping request with an empty body. -/
def emptyBodyRequest : Request := ⟨[("X-GitHub-Event", strBytes "ping")], []⟩

/-- A push request (no push handler is registered in `pingHook`). -/
def pushRequest : Request := ⟨[("X-GitHub-Event", strBytes "push")], zenBody⟩

/-- A signature header value that is not a hex HMAC at all. -/
def garbageSigRequest : Request :=
  ⟨[("X-Hub-Signature", strBytes "not-a-signature")], zenBody⟩

/-- A request with no headers at all. -/
def noHeaderRequest : Request := ⟨[], zenBody⟩

/-- A registry registering a handler for a token outside the vocabulary. -/
def strangeHook : Webhook := ⟨[], [(strBytes "strange_event", 9)]⟩

/-- A request declaring that out-of-vocabulary event token. -/
def strangeRequest : Request :=
  ⟨[("X-GitHub-Event", strBytes "strange_event")], zenBody⟩

/-! ## Helper lemmas -/

/-- An event token outside the 33-constant vocabulary matches no arm of the
`ParsePayload` switch. -/
theorem decodeArm_eq_none_of_not_mem (e : Event) (h : e ∉ githubEvents) :
    decodeArm e = none := by
  simp only [githubEvents, List.mem_cons, List.not_mem_nil, or_false, not_or] at h
  obtain ⟨n1, n2, n3, n4, n5, n6, n7, n8, n9, n10, n11, n12, n13, n14, n15, n16, n17,
    n18, n19, n20, n21, n22, n23, n24, n25, n26, n27, n28, n29, n30, n31, n32, n33⟩ := h
  simp [decodeArm, n1, n2, n3, n4, n5, n6, n7, n8, n9, n10, n11, n12, n13, n14, n15,
    n16, n17, n18, n19, n20, n21, n22, n23, n24, n25, n26, n27, n28, n29, n30, n31,
    n32, n33]

/-- `ParsePayload` never writes the package state: every branch returns the
world it was given. -/
theorem ParsePayload_world (hook : Webhook) (world : World) (r : Request) :
    (ParsePayload hook world r).2 = world := by
  unfold ParsePayload
  repeat' split <;> try rfl

set_option maxRecDepth 100000

/-! ## The claims -/

/-- C1: the claim says the HMAC check is computed over exactly the raw body
bytes later handed to the decoder.  The code violates this: `verifySignature`
runs before the body is read and MACs the package-level `payload` variable
(empty), so the request whose signature header is the correct HMAC-SHA1 of
its own body under the configured secret is rejected with 403 and its
handler is never invoked. -/
theorem c1_mac_not_over_decoded_bytes :
    (ParsePayload securedHook initialWorld signedRequest).1.response =
      some (403, "HMAC verification failed") ∧
    (ParsePayload securedHook initialWorld signedRequest).1.invoked = none :=
  ⟨rfl, rfl⟩

/-- C3: the claim says `verify(S, B, sign(S,B))` succeeds and
`verify(S, B, sign(S,B'))` fails for `B' ≠ B`.  The code violates both
halves: verification ignores `B` entirely and compares against the HMAC of
the package-level `payload` (empty), so the correctly signed request fails
and the request signed over the empty string (≠ its body) succeeds. -/
theorem c3_verify_ignores_body :
    verifySignature securedHook initialWorld signedRequest =
      .err 403 "HMAC verification failed" ∧
    verifySignature securedHook initialWorld emptySignedRequest = .ok :=
  ⟨rfl, rfl⟩

/-- C2 counterexample: a request whose body is a lone opening brace is not
valid JSON, yet the pipeline does not fail — `json.Unmarshal`'s error is
ignored and the registered ping handler is invoked (with the zero-valued
payload), with no error response written. -/
theorem c2_counterexample :
    isValidJson malformedRequest.body = false ∧
    (ParsePayload pingHook initialWorld malformedRequest).1.invoked =
      some ⟨7, (PayloadKind.ping, none), malformedRequest.headers⟩ ∧
    (ParsePayload pingHook initialWorld malformedRequest).1.response = none :=
  ⟨rfl, rfl, rfl⟩

/-- C2 amended: an empty body fails with the 500 "Issue reading Payload"
response and no handler invocation; a non-empty body that is not valid JSON
does not abort — the decode error is ignored and the registered handler is
invoked with the zero-valued payload (no error response written). -/
theorem c2_amended :
    (∀ (hook : Webhook) (world : World) (r : Request) (e : Event)
        (fn : ProcessPayloadFunc),
      getGitHubEvent r = .ok e →
      getGitHubHandler hook e = .ok fn →
      verifySignature hook world r = .ok →
      r.body = [] →
      (ParsePayload hook world r).1.response = some (500, "Issue reading Payload") ∧
      (ParsePayload hook world r).1.invoked = none) ∧
    (∀ (hook : Webhook) (world : World) (r : Request) (e : Event)
        (fn : ProcessPayloadFunc) (k : PayloadKind),
      getGitHubEvent r = .ok e →
      getGitHubHandler hook e = .ok fn →
      verifySignature hook world r = .ok →
      r.body ≠ [] →
      decodeArm e = some k →
      isValidJson r.body = false →
      (ParsePayload hook world r).1.invoked = some ⟨fn, (k, none), r.headers⟩ ∧
      (ParsePayload hook world r).1.response = none) := by
  constructor
  · intro hook world r e fn h1 h2 h3 h4
    have hr : readPayload r = .error (500, "Issue reading Payload") := by
      simp [readPayload, h4]
    simp [ParsePayload, h1, h2, h3, hr]
  · intro hook world r e fn k h1 h2 h3 h4 h5 h6
    have hr : readPayload r = .ok r.body := by
      simp [readPayload, List.length_eq_zero, h4]
    have hp : parseJson r.body = none := by
      unfold isValidJson at h6
      exact Option.not_isSome_iff_eq_none.mp (by simp [h6])
    have hd : decodePayload e r.body = some (k, none) := by
      simp [decodePayload, h5, hp]
    simp [ParsePayload, h1, h2, h3, hr, hd]

/-- Witness for C2 amended: both halves at concrete ping requests against
the unsecured registry. -/
theorem c2_amended_witness :
    ((ParsePayload pingHook initialWorld emptyBodyRequest).1.response =
        some (500, "Issue reading Payload") ∧
      (ParsePayload pingHook initialWorld emptyBodyRequest).1.invoked = none) ∧
    ((ParsePayload pingHook initialWorld malformedRequest).1.invoked =
        some ⟨7, (PayloadKind.ping, none), malformedRequest.headers⟩ ∧
      (ParsePayload pingHook initialWorld malformedRequest).1.response = none) :=
  ⟨c2_amended.1 pingHook initialWorld emptyBodyRequest (strBytes "ping") 7
      rfl rfl rfl rfl,
   c2_amended.2 pingHook initialWorld malformedRequest (strBytes "ping") 7
      PayloadKind.ping rfl rfl rfl (by decide) (by decide) rfl⟩

/-- C4: with a configured secret, a non-empty presented signature shorter
than 5 bytes makes `signature[5:]` a slice-bounds runtime panic instead of a
`SignatureMismatch` error; with 5 or more bytes, an empty signature, or no
secret, `verifySignature` never panics. -/
theorem c4_short_signature_panics :
    (∀ (hook : Webhook) (world : World) (r : Request),
      hook.secret ≠ [] →
      headerGet r.headers "X-Hub-Signature" ≠ [] →
      (headerGet r.headers "X-Hub-Signature").length < 5 →
      verifySignature hook world r = .crash) ∧
    (∀ (hook : Webhook) (world : World) (r : Request),
      5 ≤ (headerGet r.headers "X-Hub-Signature").length ∨
        headerGet r.headers "X-Hub-Signature" = [] ∨ hook.secret = [] →
      verifySignature hook world r ≠ .crash) := by
  constructor
  · intro hook world r h1 h2 h3
    have hs : hook.secret.length > 0 := List.length_pos.mpr h1
    have hg : (headerGet r.headers "X-Hub-Signature").length ≠ 0 :=
      fun h => h2 (List.eq_nil_of_length_eq_zero h)
    simp only [verifySignature, if_pos hs]
    rw [if_neg hg, if_pos h3]
  · intro hook world r h
    unfold verifySignature
    rcases h with h | h | h
    · split
      · rw [if_neg, if_neg]
        · split <;> simp
        · omega
        · omega
      · simp
    · simp [h]
      split <;> simp
    · simp [h]

/-- Witness for C4: the 4-byte signature `sha1` panics; the 5-byte
signature `sha1=` does not. -/
theorem c4_short_signature_panics_witness :
    verifySignature securedHook initialWorld shortSigRequest = .crash ∧
    verifySignature securedHook initialWorld fiveSigRequest ≠ .crash :=
  ⟨c4_short_signature_panics.1 securedHook initialWorld shortSigRequest
      (by decide) (by decide) (by decide),
   c4_short_signature_panics.2 securedHook initialWorld fiveSigRequest
      (Or.inl (by decide))⟩

/-- C5: when a secret is configured, the event header names a registered
handler, and the `X-Hub-Signature` header is absent or empty, the pipeline
writes the 403 missing-signature response and invokes no handler. -/
theorem c5_missing_signature_403 (hook : Webhook) (world : World) (r : Request)
    (e : Event) (fn : ProcessPayloadFunc)
    (h1 : getGitHubEvent r = .ok e)
    (h2 : getGitHubHandler hook e = .ok fn)
    (h3 : hook.secret ≠ [])
    (h4 : headerGet r.headers "X-Hub-Signature" = []) :
    (ParsePayload hook world r).1.response =
      some (403, "Missing X-Hub-Signature required for HMAC verification") ∧
    (ParsePayload hook world r).1.invoked = none := by
  have hs : hook.secret.length > 0 := List.length_pos.mpr h3
  have hv : verifySignature hook world r =
      .err 403 "Missing X-Hub-Signature required for HMAC verification" := by
    simp [verifySignature, hs, h4]
  simp [ParsePayload, h1, h2, hv]

/-- Witness for C5: a secured registry and a ping request without a
signature header. -/
theorem c5_missing_signature_403_witness :
    (ParsePayload securedHook initialWorld noSigRequest).1.response =
      some (403, "Missing X-Hub-Signature required for HMAC verification") ∧
    (ParsePayload securedHook initialWorld noSigRequest).1.invoked = none :=
  c5_missing_signature_403 securedHook initialWorld noSigRequest
    (strBytes "ping") 7 rfl rfl (by decide) rfl

/-- C6: with an empty secret, signature verification succeeds for every
request, whatever the `X-Hub-Signature` header holds (or whether it exists
at all). -/
theorem c6_no_secret_verify_ok (hook : Webhook) (world : World) (r : Request)
    (h : hook.secret = []) : verifySignature hook world r = .ok := by
  simp [verifySignature, h]

/-- Witness for C6: an unsecured registry accepts a garbage signature value
and a request with no headers at all. -/
theorem c6_no_secret_verify_ok_witness :
    verifySignature pingHook initialWorld garbageSigRequest = .ok ∧
    verifySignature pingHook initialWorld noHeaderRequest = .ok :=
  ⟨c6_no_secret_verify_ok pingHook initialWorld garbageSigRequest rfl,
   c6_no_secret_verify_ok pingHook initialWorld noHeaderRequest rfl⟩

/-- C7: an event token with no registered handler makes the lookup return
its not-registered error, and the pipeline ends with no handler invocation
and no error response written. -/
theorem c7_unregistered_event_silent (hook : Webhook) (world : World)
    (r : Request) (e : Event)
    (h1 : getGitHubEvent r = .ok e)
    (h2 : lookupFunc hook.eventFuncs e = none) :
    (∃ msg, getGitHubHandler hook e = .error msg) ∧
    ParsePayload hook world r = (⟨none, none, false⟩, world) := by
  have hh : getGitHubHandler hook e = .error
      ("Webhook Event " ++ bytesStr e ++ " not registered, it is recommended to setup only events in github that will be registered in the webhook to avoid unnecessary traffic and reduce potential attack vectors.") := by
    simp [getGitHubHandler, h2]
  refine ⟨⟨_, hh⟩, ?_⟩
  simp [ParsePayload, h1, hh]

/-- Witness for C7: a push request against a registry that only registers a
ping handler. -/
theorem c7_unregistered_event_silent_witness :
    (∃ msg, getGitHubHandler pingHook (strBytes "push") = .error msg) ∧
    ParsePayload pingHook initialWorld pushRequest = (⟨none, none, false⟩, initialWorld) :=
  c7_unregistered_event_silent pingHook initialWorld pushRequest
    (strBytes "push") rfl rfl

/-- C8: `installation` and `integration_installation` are served by the one
switch arm that decodes into `InstallationPayload`: for every body the two
tokens produce the same decoded value of the same schema. -/
theorem c8_installation_alias (body : Bytes) :
    decodePayload InstallationEvent body =
      decodePayload IntegrationInstallationEvent body ∧
    decodeArm InstallationEvent = some PayloadKind.installation ∧
    decodeArm IntegrationInstallationEvent = some PayloadKind.installation := by
  have hI : decodeArm InstallationEvent = some PayloadKind.installation := by decide
  have hII : decodeArm IntegrationInstallationEvent = some PayloadKind.installation := by
    decide
  exact ⟨by simp [decodePayload, hI, hII], hI, hII⟩

/-- C9: an event token outside the 33-token vocabulary that nevertheless has
a registered handler passes header extraction, lookup, verification and body
read, then falls through the switch: no handler invocation, no response, no
panic. -/
theorem c9_unknown_token_falls_through (hook : Webhook) (world : World)
    (r : Request) (e : Event) (fn : ProcessPayloadFunc)
    (h1 : getGitHubEvent r = .ok e)
    (h2 : getGitHubHandler hook e = .ok fn)
    (h3 : verifySignature hook world r = .ok)
    (h4 : r.body ≠ [])
    (h5 : e ∉ githubEvents) :
    ParsePayload hook world r = (⟨none, none, false⟩, world) := by
  have hr : readPayload r = .ok r.body := by
    simp [readPayload, List.length_eq_zero, h4]
  have hd : decodePayload e r.body = none := by
    simp [decodePayload, decodeArm_eq_none_of_not_mem e h5]
  simp [ParsePayload, h1, h2, h3, hr, hd]

/-- Witness for C9: the registered but out-of-vocabulary token
`strange_event`. -/
theorem c9_unknown_token_falls_through_witness :
    ParsePayload strangeHook initialWorld strangeRequest =
      (⟨none, none, false⟩, initialWorld) :=
  c9_unknown_token_falls_through strangeHook initialWorld strangeRequest
    (strBytes "strange_event") 9 rfl rfl rfl (by decide) (by decide)

/-- C10: one `ParsePayload` call leaves the package state untouched, so a
second run on the same request bytes and registry state yields the identical
outcome (same response, same invocation with the same decoded payload). -/
theorem c10_rerun_same_outcome (hook : Webhook) (world : World) (r : Request) :
    (ParsePayload hook world r).2 = world ∧
    ParsePayload hook (ParsePayload hook world r).2 r = ParsePayload hook world r := by
  have hw : (ParsePayload hook world r).2 = world := ParsePayload_world hook world r
  exact ⟨hw, by rw [hw]⟩
